import Mathlib

set_option autoImplicit false

deriving instance DecidableEq for Except

/-!
Shallow embedding of the persistence and validation layer of the
Donation-Inventory backend:

* `backend/src/types.ts` — the Zod schemas `CreateDonationSchema` and
  `UpdateDonationSchema` (the Validator);
* `backend/src/database.ts` — the SQLite table constraints from
  `initializeTables` and the five operations of the `Database` class
  (the Store);
* `backend/src/routes.ts` — the Express handlers, modelled as pure
  functions from an id string / request body / store state to a
  response and a new store state.

Timestamps (SQLite `CURRENT_TIMESTAMP`) are modelled as a `now : Nat`
parameter supplied to each operation; `quantity` (SQLite `REAL`, a JS
number) is modelled as `Rat`; JS promise rejections and thrown errors
are modelled as `Except String`, carrying the `Error` message.
-/

/-- A loosely-typed value in a request body. The schema fields only
distinguish strings and numbers, which is what Zod's `z.string()` /
`z.number()` type tests accept. -/
inductive JsValue where
  | str (s : String)
  | num (q : Rat)
  deriving DecidableEq, Repr

/-- A request body: a JS object modelled as an association list of
field names to values (first binding wins, as JS object keys are
unique). -/
abbrev FieldMap := List (String × JsValue)

/-- JS property access on the parsed request body. -/
def lookupField (m : FieldMap) (k : String) : Option JsValue :=
  List.lookup k m

/-- Type `CreateDonationInput` of backend/src/types.ts: the normalized
output of `CreateDonationSchema` — exactly the four declared fields,
so unknown keys of the body cannot occur in it. -/
structure CreateDonationInput where
  donor_name : String
  donation_type : String
  quantity : Rat
  date : String
  deriving DecidableEq, Repr

/-- Type `UpdateDonationInput` of backend/src/types.ts: every field
optional. -/
structure UpdateDonationInput where
  donor_name : Option String
  donation_type : Option String
  quantity : Option Rat
  date : Option String
  deriving DecidableEq, Repr

/-- The seven donation types of the `DonationType` enum in
backend/src/types.ts, as validated by `z.enum` and by the SQLite
`CHECK(donation_type IN (...))` constraint. -/
def donationTypes : List String :=
  ["money", "food", "clothing", "toys", "books", "household", "other"]

/-- JavaScript `String.prototype.trim` (as invoked by Zod's `.trim()`
transform): strips whitespace from both ends. Written over the
character list so concrete instances compute by kernel reduction. -/
def jsTrim (s : String) : String :=
  ⟨((s.data.dropWhile Char.isWhitespace).reverse.dropWhile Char.isWhitespace).reverse⟩

/-- The `donor_name` rule of `CreateDonationSchema`:
`z.string().min(2, ...).max(100, ...).trim()`. Zod runs the checks of
the chain in order, so `min` and `max` test the raw string and the
`trim` transform is applied afterwards to the output. Error strings
are formatted as the route does: `path: message`. -/
def parseDonorName (v : Option JsValue) : Except (List String) String :=
  match v with
  | none => .error ["donor_name: Required"]
  | some (.num _) => .error ["donor_name: Expected string, received number"]
  | some (.str s) =>
    let issues :=
      (if s.length < 2 then ["donor_name: Donor name must be at least 2 characters"] else [])
        ++ (if 100 < s.length then ["donor_name: Donor name must be less than 100 characters"] else [])
    match issues with
    | [] => .ok (jsTrim s)
    | es => .error es

/-- The `donation_type` rule of `CreateDonationSchema`: `z.enum` over
the seven donation types. -/
def parseDonationType (v : Option JsValue) : Except (List String) String :=
  match v with
  | none => .error ["donation_type: Required"]
  | some (.num _) => .error ["donation_type: Invalid enum value"]
  | some (.str s) =>
    if s ∈ donationTypes then .ok s else .error ["donation_type: Invalid enum value"]

/-- The `quantity` rule of `CreateDonationSchema`:
`z.number().positive(...).max(1000000, ...)`. `positive` fails on
`q ≤ 0`; `max` fails on `q > 1000000` (the boundary 1000000 itself is
accepted). -/
def parseQuantity (v : Option JsValue) : Except (List String) Rat :=
  match v with
  | none => .error ["quantity: Required"]
  | some (.str _) => .error ["quantity: Expected number, received string"]
  | some (.num q) =>
    let issues :=
      (if q ≤ 0 then ["quantity: Quantity must be a positive number"] else [])
        ++ (if 1000000 < q then ["quantity: Quantity seems too large"] else [])
    match issues with
    | [] => .ok q
    | es => .error es

/-- The `date` rule of `CreateDonationSchema`:
`z.string().refine(d => not (isNaN (Date.parse d)))`. `Date.parse` is
a JS builtin outside this repository, so the acceptance test is a
parameter `dateOk` of the Validator; every theorem below that touches
dates is quantified over it. -/
def parseDate (dateOk : String → Bool) (v : Option JsValue) : Except (List String) String :=
  match v with
  | none => .error ["date: Required"]
  | some (.num _) => .error ["date: Expected string, received number"]
  | some (.str s) =>
    if dateOk s then .ok s else .error ["date: Please provide a valid date"]

/-- Issues contributed by one field of an object schema. -/
def fieldIssues {α : Type} : Except (List String) α → List String
  | .ok _ => []
  | .error es => es

/-- Schema `CreateDonationSchema` via `safeParse`, composed with the route's issue
formatting: validates all four declared fields, collects every issue
(Zod does not stop at the first bad field), strips unknown keys
(`z.object` default), and returns the normalized record on success. -/
def validateCreate (dateOk : String → Bool) (m : FieldMap) :
    Except (List String) CreateDonationInput :=
  match parseDonorName (lookupField m "donor_name"),
        parseDonationType (lookupField m "donation_type"),
        parseQuantity (lookupField m "quantity"),
        parseDate dateOk (lookupField m "date") with
  | .ok n, .ok t, .ok q, .ok d => .ok ⟨n, t, q, d⟩
  | a, b, c, d =>
    .error (fieldIssues a ++ fieldIssues b ++ fieldIssues c ++ fieldIssues d)

/-- One optional field of `UpdateDonationSchema`: a missing key passes
(`.optional()`), a present key runs the same rule as in the create
schema. -/
def parseOptional {α : Type} (p : Option JsValue → Except (List String) α)
    (v : Option JsValue) : Except (List String) (Option α) :=
  match v with
  | none => .ok none
  | some x => (p (some x)).map some

/-- Schema `UpdateDonationSchema` via `safeParse`, composed with the route's issue
formatting: every field optional, same per-field rules, unknown keys
stripped. An empty body passes and yields the all-absent record. -/
def validateUpdate (dateOk : String → Bool) (m : FieldMap) :
    Except (List String) UpdateDonationInput :=
  match parseOptional parseDonorName (lookupField m "donor_name"),
        parseOptional parseDonationType (lookupField m "donation_type"),
        parseOptional parseQuantity (lookupField m "quantity"),
        parseOptional (parseDate dateOk) (lookupField m "date") with
  | .ok n, .ok t, .ok q, .ok d => .ok ⟨n, t, q, d⟩
  | a, b, c, d =>
    .error (fieldIssues a ++ fieldIssues b ++ fieldIssues c ++ fieldIssues d)

/-- A row of the `donations` table (the `Donation` interface of
backend/src/types.ts). -/
structure Donation where
  id : Nat
  donor_name : String
  donation_type : String
  quantity : Rat
  date : String
  created_at : Nat
  updated_at : Nat
  deriving DecidableEq, Repr

/-- The persisted state: the rows of the `donations` table together
with the `AUTOINCREMENT` sequence value (largest id ever assigned),
which SQLite keeps in `sqlite_sequence` and which survives row
deletion. -/
structure DB where
  rows : List Donation
  seq : Nat
  deriving DecidableEq, Repr

def emptyDB : DB := ⟨[], 0⟩

/-- Invariant of the `AUTOINCREMENT` scheme: every stored row's id is
at most the sequence value. It holds for the empty table and is
preserved by every operation. -/
def DB.wf (db : DB) : Prop :=
  ∀ r ∈ db.rows, r.id ≤ db.seq

/-- The row-level CHECK constraints of the `donations` table created
by `initializeTables`: `length(donor_name) >= 2`,
`donation_type IN (the seven types)`, `quantity > 0`. (The table has
no upper length bound, no quantity maximum and no date check.) -/
def storeChecksOk (donor_name donation_type : String) (quantity : Rat) : Bool :=
  decide (2 ≤ donor_name.length)
    && donationTypes.contains donation_type
    && decide ((0 : Rat) < quantity)

/-- Errors the SQLite engine itself can report on a statement:
rejection by a CHECK constraint, or a storage-medium failure
(I/O error, corruption, connection loss), the latter injected through
the `mediumFault` flag of the operations below. -/
inductive SqliteError where
  | constraintViolation
  | ioFailure
  deriving DecidableEq, Repr

/-- The `INSERT INTO donations (donor_name, donation_type, quantity,
date) VALUES (?, ?, ?, ?)` statement as executed by the SQLite
engine: both `created_at` and `updated_at` take their
`DEFAULT CURRENT_TIMESTAMP`, evaluated once per statement (hence
equal); the id is `seq + 1` by `AUTOINCREMENT`; the CHECK constraints
are enforced atomically — on violation nothing is written. -/
def sqliteInsertDonation (now : Nat) (i : CreateDonationInput) (db : DB)
    (mediumFault : Bool) : Except SqliteError (Donation × DB) :=
  if mediumFault then .error .ioFailure
  else if storeChecksOk i.donor_name i.donation_type i.quantity then
    let d : Donation :=
      ⟨db.seq + 1, i.donor_name, i.donation_type, i.quantity, i.date, now, now⟩
    .ok (d, ⟨db.rows ++ [d], db.seq + 1⟩)
  else .error .constraintViolation

/-- Method `Database.createDonation`: runs the INSERT and, on any SQLite
error whatsoever, rejects with `Error('Failed to create donation')` —
the error class is not inspected, so the surfaced message is the same
for a constraint violation and for a medium failure. -/
def createDonation (now : Nat) (i : CreateDonationInput) (db : DB)
    (mediumFault : Bool) : Except String (Donation × DB) :=
  match sqliteInsertDonation now i db mediumFault with
  | .error _ => .error "Failed to create donation"
  | .ok r => .ok r

/-- Test `Object.keys(updates).filter(k => updates[k] !== undefined).length === 0`:
the dynamic field list of `updateDonation` is empty. -/
def UpdateDonationInput.isEmpty (u : UpdateDonationInput) : Bool :=
  u.donor_name.isNone && u.donation_type.isNone
    && u.quantity.isNone && u.date.isNone

/-- The row produced by the `UPDATE donations SET <supplied fields>,
updated_at = CURRENT_TIMESTAMP WHERE id = ?` statement: each supplied
field overwrites the old value, every other column keeps its value,
and `updated_at` is set to the statement's current time. -/
def applyUpdate (u : UpdateDonationInput) (now : Nat) (r : Donation) : Donation :=
  { r with
    donor_name := u.donor_name.getD r.donor_name
    donation_type := u.donation_type.getD r.donation_type
    quantity := u.quantity.getD r.quantity
    date := u.date.getD r.date
    updated_at := now }

/-- Method `Database.updateDonation`: throws `Error('No fields provided for
update')` when the payload supplies no fields; resolves `null` when no
row matched (`this.changes === 0`); otherwise writes the merged row
(subject to the table's CHECK constraints, any violation rejecting
with `Error('Failed to update donation')`) and returns it. -/
def updateDonation (now : Nat) (id : Nat) (u : UpdateDonationInput) (db : DB) :
    Except String (Option Donation × DB) :=
  if u.isEmpty then .error "No fields provided for update"
  else
    match db.rows.find? (fun r => r.id == id) with
    | none => .ok (none, db)
    | some r =>
      if storeChecksOk (applyUpdate u now r).donor_name
          (applyUpdate u now r).donation_type (applyUpdate u now r).quantity then
        .ok (some (applyUpdate u now r),
          ⟨db.rows.map (fun x => if x.id == id then applyUpdate u now r else x), db.seq⟩)
      else .error "Failed to update donation"

/-- Method `Database.deleteDonation`: `DELETE FROM donations WHERE id = ?`;
resolves `true` when `this.changes > 0` (a row matched), `false`
otherwise. A missing id is not an error; the promise still resolves. -/
def deleteDonation (id : Nat) (db : DB) : Bool × DB :=
  if db.rows.any (fun r => r.id == id) then
    (true, ⟨db.rows.filter (fun r => r.id != id), db.seq⟩)
  else (false, db)

/-- Method `Database.getDonationById`: `SELECT * FROM donations WHERE id = ?`;
resolves the row or `null`. No validation of the id happens here. -/
def getDonationById (id : Nat) (db : DB) : Option Donation :=
  db.rows.find? (fun r => r.id == id)

/-- Value of the decimal digit list read most-significant first. -/
def digitsToNat (ds : List Char) : Nat :=
  ds.foldl (fun a c => 10 * a + (c.toNat - 48)) 0

/-- JavaScript `parseInt(s)` with no radix argument, on its decimal
behavior: skip leading whitespace, read an optional sign, then the
longest run of leading decimal digits; `NaN` (here `none`) when that
run is empty. (The hexadecimal `0x` prefix form of `parseInt` is
outside this model.) -/
def jsParseIntCore (cs : List Char) : Option Int :=
  let cs1 := cs.dropWhile Char.isWhitespace
  let signAndRest : Bool × List Char :=
    match cs1 with
    | c :: t => if c = '-' then (true, t) else if c = '+' then (false, t) else (false, cs1)
    | [] => (false, [])
  let ds := signAndRest.2.takeWhile Char.isDigit
  if ds.isEmpty then none
  else
    let n : Int := Int.ofNat (digitsToNat ds)
    some (if signAndRest.1 then -n else n)

def jsParseInt (s : String) : Option Int :=
  jsParseIntCore s.data

/-- The uniform response envelope sent by the routes:
HTTP status, `success`, `message`, Zod `errors` (when any), and the
returned donation (when any). -/
structure RouteResponse where
  status : Nat
  success : Bool
  message : String
  errors : List String
  data : Option Donation
  deriving DecidableEq, Repr

/-- Route `GET /donations/:id`: `parseInt` the id segment; `isNaN` or `<= 0`
is a 400 "Invalid donation ID"; a missing row is a 404 "Donation not
found"; otherwise 200 with the row. -/
def routeGetDonationById (idStr : String) (db : DB) : RouteResponse :=
  match jsParseInt idStr with
  | none => ⟨400, false, "Invalid donation ID", [], none⟩
  | some n =>
    if n ≤ 0 then ⟨400, false, "Invalid donation ID", [], none⟩
    else
      match getDonationById n.toNat db with
      | none => ⟨404, false, "Donation not found", [], none⟩
      | some d => ⟨200, true, "Donation retrieved successfully", [], some d⟩

/-- Route `POST /donations`: validate the body with `CreateDonationSchema`
(failure: 400 "Validation failed" with the issue list); then
`createDonation`, whose rejection is caught by the handler's
`try/catch` and surfaced as a 500 "Failed to create donation";
success is a 201 with the stored row. -/
def routeCreateDonation (dateOk : String → Bool) (now : Nat) (body : FieldMap)
    (db : DB) (mediumFault : Bool) : RouteResponse × DB :=
  match validateCreate dateOk body with
  | .error es => (⟨400, false, "Validation failed", es, none⟩, db)
  | .ok i =>
    match createDonation now i db mediumFault with
    | .error _ => (⟨500, false, "Failed to create donation", [], none⟩, db)
    | .ok (d, db') => (⟨201, true, "Donation created successfully", [], some d⟩, db')

/-- Route `PUT /donations/:id`: `parseInt` the id (400 on `isNaN`/`<= 0`);
validate the body with `UpdateDonationSchema` (400 on failure — an
empty body passes); look the row up (404 when absent); then
`updateDonation`, whose thrown error is caught by the handler's
`try/catch` and surfaced as a 500 "Failed to update donation"; a
`null` result is a 404; success is a 200 with the updated row. -/
def routeUpdateDonation (dateOk : String → Bool) (now : Nat) (idStr : String)
    (body : FieldMap) (db : DB) : RouteResponse × DB :=
  match jsParseInt idStr with
  | none => (⟨400, false, "Invalid donation ID", [], none⟩, db)
  | some n =>
    if n ≤ 0 then (⟨400, false, "Invalid donation ID", [], none⟩, db)
    else
      match validateUpdate dateOk body with
      | .error es => (⟨400, false, "Validation failed", es, none⟩, db)
      | .ok u =>
        match getDonationById n.toNat db with
        | none => (⟨404, false, "Donation not found", [], none⟩, db)
        | some _ =>
          match updateDonation now n.toNat u db with
          | .error _ => (⟨500, false, "Failed to update donation", [], none⟩, db)
          | .ok (none, db') => (⟨404, false, "Donation not found", [], none⟩, db')
          | .ok (some d, db') =>
            (⟨200, true, "Donation updated successfully", [], some d⟩, db')

/-- Route `DELETE /donations/:id`: `parseInt` the id (400 on `isNaN`/`<= 0`);
look the row up (404 when absent); then `deleteDonation` (404 when it
reports `false`, 200 on success). -/
def routeDeleteDonation (idStr : String) (db : DB) : RouteResponse × DB :=
  match jsParseInt idStr with
  | none => (⟨400, false, "Invalid donation ID", [], none⟩, db)
  | some n =>
    if n ≤ 0 then (⟨400, false, "Invalid donation ID", [], none⟩, db)
    else
      match getDonationById n.toNat db with
      | none => (⟨404, false, "Donation not found", [], none⟩, db)
      | some _ =>
        match deleteDonation n.toNat db with
        | (false, db') => (⟨404, false, "Donation not found", [], none⟩, db')
        | (true, db') => (⟨200, true, "Donation deleted successfully", [], none⟩, db')

/-- A concrete stand-in for the JS `Date.parse` acceptance test, used
only to instantiate the `dateOk` parameter at concrete inputs in
witnesses and counterexamples: accepts `YYYY-MM-DD` strings with a
plausible month and day (every concrete date below is a real ISO date
that `Date.parse` accepts). -/
def isIsoDate (s : String) : Bool :=
  match s.data with
  | [y1, y2, y3, y4, '-', m1, m2, '-', d1, d2] =>
    [y1, y2, y3, y4, m1, m2, d1, d2].all Char.isDigit
      && decide (1 ≤ 10 * (m1.toNat - 48) + (m2.toNat - 48))
      && decide (10 * (m1.toNat - 48) + (m2.toNat - 48) ≤ 12)
      && decide (1 ≤ 10 * (d1.toNat - 48) + (d2.toNat - 48))
      && decide (10 * (d1.toNat - 48) + (d2.toNat - 48) ≤ 31)
  | _ => false

/-! ## Helper lemmas -/

theorem isWhitespace_eq_false_of_isDigit {c : Char} (h : c.isDigit = true) :
    c.isWhitespace = false := by
  have h1 : ¬ (c = ' ') := by intro hc; subst hc; revert h; decide
  have h2 : ¬ (c = '\t') := by intro hc; subst hc; revert h; decide
  have h3 : ¬ (c = '\r') := by intro hc; subst hc; revert h; decide
  have h4 : ¬ (c = '\n') := by intro hc; subst hc; revert h; decide
  simp [Char.isWhitespace, h1, h2, h3, h4]

theorem ne_dash_of_isDigit {c : Char} (h : c.isDigit = true) : ¬ (c = '-') := by
  intro hc; subst hc; revert h; decide

theorem ne_plus_of_isDigit {c : Char} (h : c.isDigit = true) : ¬ (c = '+') := by
  intro hc; subst hc; revert h; decide

theorem takeWhile_digits_append (ds rest : List Char)
    (hdig : ∀ c ∈ ds, c.isDigit = true)
    (hrest : ∀ c, rest.head? = some c → c.isDigit = false) :
    (ds ++ rest).takeWhile Char.isDigit = ds := by
  induction ds with
  | nil =>
    cases rest with
    | nil => rfl
    | cons c t => simp [List.takeWhile_cons, hrest c rfl]
  | cons c t ih =>
    simp only [List.cons_append, List.takeWhile_cons, hdig c (by simp), if_true]
    rw [ih (fun x hx => hdig x (by simp [hx]))]

/-- On a string made of a nonempty run of decimal digits followed by an
arbitrary tail that does not start with a digit, `jsParseInt` returns
the value of the digit run, exactly as JavaScript `parseInt` does. -/
theorem jsParseInt_digits_append (ds rest : List Char) (hne : ds ≠ [])
    (hdig : ∀ c ∈ ds, c.isDigit = true)
    (hrest : ∀ c, rest.head? = some c → c.isDigit = false) :
    jsParseInt (String.mk (ds ++ rest)) = some (Int.ofNat (digitsToNat ds)) := by
  obtain ⟨c, t, rfl⟩ := List.exists_cons_of_ne_nil hne
  have hc : c.isDigit = true := hdig c (by simp)
  unfold jsParseInt jsParseIntCore
  simp only [String.mk, List.cons_append, List.dropWhile_cons,
    isWhitespace_eq_false_of_isDigit hc, Bool.false_eq_true, if_false,
    ne_dash_of_isDigit hc, ne_plus_of_isDigit hc, if_neg]
  rw [show ((c :: (t ++ rest)).takeWhile Char.isDigit) = c :: t from by
    have := takeWhile_digits_append (c :: t) rest hdig hrest
    simpa using this]
  simp

/-! ## C9 — parseInt numeric-prefix behavior of the id routes -/

/-- Claim C9 (confirmed): at the public interface the id path segment
is parsed with `parseInt`, so an id string whose leading characters
form an integer followed by non-numeric characters is treated by the
get-by-id, update and delete routes exactly like the string of the
leading digits alone — they silently operate on the numeric-prefix
id — and a string is rejected as the invalid-id outcome precisely
when `parseInt` yields `NaN` (`none`) or a non-positive value. -/
theorem routesUseNumericPrefixOfId (ds rest : List Char) (hne : ds ≠ [])
    (hdig : ∀ c ∈ ds, c.isDigit = true)
    (hrest : ∀ c, rest.head? = some c → c.isDigit = false) :
    (∀ db, routeGetDonationById (String.mk (ds ++ rest)) db
        = routeGetDonationById (String.mk ds) db)
  ∧ (∀ db, routeDeleteDonation (String.mk (ds ++ rest)) db
        = routeDeleteDonation (String.mk ds) db)
  ∧ (∀ dateOk now body db,
      routeUpdateDonation dateOk now (String.mk (ds ++ rest)) body db
        = routeUpdateDonation dateOk now (String.mk ds) body db)
  ∧ (∀ s db, (routeGetDonationById s db).message = "Invalid donation ID"
        ↔ (jsParseInt s = none ∨ ∃ n, jsParseInt s = some n ∧ n ≤ 0)) := by
  have hp1 := jsParseInt_digits_append ds rest hne hdig hrest
  have hp2 := jsParseInt_digits_append ds [] hne hdig (by intro c hc; simp at hc)
  rw [List.append_nil] at hp2
  refine ⟨?_, ?_, ?_, ?_⟩
  · intro db
    rw [routeGetDonationById, routeGetDonationById, hp1, hp2]
  · intro db
    rw [routeDeleteDonation, routeDeleteDonation, hp1, hp2]
  · intro dateOk now body db
    rw [routeUpdateDonation, routeUpdateDonation, hp1, hp2]
  · intro s db
    unfold routeGetDonationById
    cases hj : jsParseInt s with
    | none => simp
    | some n =>
      by_cases hn : n ≤ 0
      · simp [hn]
      · simp only [if_neg hn]
        cases hg : getDonationById n.toNat db with
        | none =>
          refine iff_of_false (by decide) ?_
          rintro (h | ⟨m, hm, hle⟩)
          · exact Option.noConfusion h
          · cases hm; exact hn hle
        | some d =>
          refine iff_of_false (by simp) ?_
          rintro (h | ⟨m, hm, hle⟩)
          · exact Option.noConfusion h
          · cases hm; exact hn hle

/-- Witness for C9 at a concrete input: the route treats the id
string `7abc` exactly like `7`. -/
theorem routesUseNumericPrefixOfId_witness :
    routeGetDonationById (String.mk ['7', 'a', 'b', 'c'])
        ⟨[⟨7, "Alice", "food", 5, "2024-03-01", 1, 1⟩], 7⟩
      = routeGetDonationById (String.mk ['7'])
        ⟨[⟨7, "Alice", "food", 5, "2024-03-01", 1, 1⟩], 7⟩ :=
  (routesUseNumericPrefixOfId ['7'] ['a', 'b', 'c'] (by decide) (by decide)
    (by intro c hc; cases hc; decide)).1
    ⟨[⟨7, "Alice", "food", 5, "2024-03-01", 1, 1⟩], 7⟩

/-! ## C3 — InvalidArgument vs NotFound on get-by-id -/

/-- Claim C3 counterexample: the id string `"7.5"` is not an integer,
yet `GET /donations/:id` does not reject it as the InvalidArgument
outcome — `parseInt` reads the prefix `7` and the lookup proceeds,
answering NotFound (404) on an empty store instead of 400. -/
theorem getById_nonInteger_counterexample :
    (routeGetDonationById "7.5" emptyDB).status = 404
  ∧ (routeGetDonationById "7.5" emptyDB).message = "Donation not found"
  ∧ ¬ ((routeGetDonationById "7.5" emptyDB).status = 400) := by
  decide

/-- Claim C3 (corrected): an id string is rejected as the 400
InvalidArgument outcome when `parseInt` yields `NaN` or a non-positive
value; a string parsing to a positive id with no matching record gets
the 404 NotFound outcome; the two outcomes are distinguishable. (A
non-integer string with a positive integer prefix, such as `"7.5"`, is
not rejected: it is treated as the prefix id — see C9.) -/
theorem getById_invalidArgument_vs_notFound :
    (∀ s db, jsParseInt s = none →
      routeGetDonationById s db = ⟨400, false, "Invalid donation ID", [], none⟩)
  ∧ (∀ s n db, jsParseInt s = some n → n ≤ 0 →
      routeGetDonationById s db = ⟨400, false, "Invalid donation ID", [], none⟩)
  ∧ (∀ s n db, jsParseInt s = some n → 0 < n → getDonationById n.toNat db = none →
      routeGetDonationById s db = ⟨404, false, "Donation not found", [], none⟩)
  ∧ (RouteResponse.mk 400 false "Invalid donation ID" [] none
      ≠ RouteResponse.mk 404 false "Donation not found" [] none) := by
  refine ⟨?_, ?_, ?_, by decide⟩
  · intro s db h
    simp only [routeGetDonationById, h]
  · intro s n db h hn
    simp only [routeGetDonationById, h, if_pos hn]
  · intro s n db h hn hg
    simp only [routeGetDonationById, h, if_neg (not_le.mpr hn), hg]

/-- Witness for C3 at concrete inputs: `"abc"` is rejected as 400 and
the well-formed absent id `"5"` gets 404. -/
theorem getById_invalidArgument_vs_notFound_witness :
    routeGetDonationById "abc" emptyDB
        = ⟨400, false, "Invalid donation ID", [], none⟩
  ∧ routeGetDonationById "5" emptyDB
        = ⟨404, false, "Donation not found", [], none⟩ :=
  ⟨getById_invalidArgument_vs_notFound.1 "abc" emptyDB (by decide),
   getById_invalidArgument_vs_notFound.2.2.1 "5" 5 emptyDB (by decide) (by decide) (by decide)⟩

/-! ## C1 — donor_name trimming vs length check -/

theorem validateCreate_ok_donorName {dateOk : String → Bool} {m : FieldMap}
    {s : String} {r : CreateDonationInput}
    (hname : lookupField m "donor_name" = some (JsValue.str s))
    (hok : validateCreate dateOk m = .ok r) : r.donor_name = jsTrim s := by
  rcases h1 : parseDonorName (lookupField m "donor_name") with e1 | v1 <;>
  rcases h2 : parseDonationType (lookupField m "donation_type") with e2 | v2 <;>
  rcases h3 : parseQuantity (lookupField m "quantity") with e3 | v3 <;>
  rcases h4 : parseDate dateOk (lookupField m "date") with e4 | v4 <;>
    rw [validateCreate, h1, h2, h3, h4] at hok <;>
    cases hok <;>
    (rw [hname] at h1
     by_cases ha : s.length < 2 <;> by_cases hb : 100 < s.length <;>
       simp [parseDonorName, ha, hb] at h1 <;>
       simp [h1])

/-- Claim C1 counterexample: for the create input with
`donor_name = "  a "` (raw length 4, trimmed length 1) and otherwise
valid fields, the Validator accepts — the Zod chain checks the length
before trimming — and the Store alone rejects, surfaced as the 500
storage failure, a different outcome shape than the Validator's 400;
so a donor_name with fewer than 2 trimmed characters is not rejected
by both layers with the same outcome shape. -/
theorem donorName_trimAfterLengthCheck_counterexample :
    validateCreate isIsoDate
        [("donor_name", JsValue.str "  a "), ("donation_type", JsValue.str "food"),
         ("quantity", JsValue.num 5), ("date", JsValue.str "2024-03-01")]
      = .ok ⟨"a", "food", 5, "2024-03-01"⟩
  ∧ ("a" : String).length < 2
  ∧ routeCreateDonation isIsoDate 10
        [("donor_name", JsValue.str "  a "), ("donation_type", JsValue.str "food"),
         ("quantity", JsValue.num 5), ("date", JsValue.str "2024-03-01")]
        emptyDB false
      = (⟨500, false, "Failed to create donation", [], none⟩, emptyDB) := by
  refine ⟨by decide, by decide, by decide⟩

/-- Claim C1 (corrected): the Validator checks donor_name length on
the raw, untrimmed string — rejecting with the min/max message when
the raw length is < 2 / > 100 — and only then trims, so the normalized
record carries the trimmed name; an input whose donor_name has fewer
than 2 characters after trimming can pass the Validator, but it is
never persisted: the create pipeline fails (the Store's CHECK
rejecting what the Validator let through) and leaves the store
unchanged. -/
theorem donorName_rawLengthCheck_thenTrim_neverPersisted
    (dateOk : String → Bool) (m : FieldMap) (s : String)
    (hname : lookupField m "donor_name" = some (JsValue.str s)) :
    (s.length < 2 →
      ∃ es, validateCreate dateOk m = .error es
        ∧ "donor_name: Donor name must be at least 2 characters" ∈ es)
  ∧ (100 < s.length →
      ∃ es, validateCreate dateOk m = .error es
        ∧ "donor_name: Donor name must be less than 100 characters" ∈ es)
  ∧ (∀ r, validateCreate dateOk m = .ok r → r.donor_name = jsTrim s)
  ∧ ((jsTrim s).length < 2 → ∀ now db mediumFault,
      (routeCreateDonation dateOk now m db mediumFault).1.success = false
        ∧ (routeCreateDonation dateOk now m db mediumFault).2 = db) := by
  refine ⟨?_, ?_, fun r hok => validateCreate_ok_donorName hname hok, ?_⟩
  · intro hlt
    have hdn : parseDonorName (lookupField m "donor_name")
        = .error ["donor_name: Donor name must be at least 2 characters"] := by
      rw [hname]
      simp [parseDonorName, hlt, show ¬ (100 < s.length) from by omega]
    rcases h2 : parseDonationType (lookupField m "donation_type") with e2 | v2 <;>
    rcases h3 : parseQuantity (lookupField m "quantity") with e3 | v3 <;>
    rcases h4 : parseDate dateOk (lookupField m "date") with e4 | v4 <;>
      (rw [validateCreate, hdn, h2, h3, h4]
       exact ⟨_, rfl, by simp [fieldIssues]⟩)
  · intro hgt
    have hdn : parseDonorName (lookupField m "donor_name")
        = .error ["donor_name: Donor name must be less than 100 characters"] := by
      rw [hname]
      simp [parseDonorName, hgt, show ¬ (s.length < 2) from by omega]
    rcases h2 : parseDonationType (lookupField m "donation_type") with e2 | v2 <;>
    rcases h3 : parseQuantity (lookupField m "quantity") with e3 | v3 <;>
    rcases h4 : parseDate dateOk (lookupField m "date") with e4 | v4 <;>
      (rw [validateCreate, hdn, h2, h3, h4]
       exact ⟨_, rfl, by simp [fieldIssues]⟩)
  · intro hst now db mediumFault
    cases hv : validateCreate dateOk m with
    | error es => simp [routeCreateDonation, hv]
    | ok r =>
      have hr : r.donor_name = jsTrim s := validateCreate_ok_donorName hname hv
      have hchk : storeChecksOk r.donor_name r.donation_type r.quantity = false := by
        unfold storeChecksOk
        rw [hr, decide_eq_false (by omega : ¬ (2 ≤ (jsTrim s).length))]
        simp
      cases mediumFault <;>
        simp [routeCreateDonation, hv, createDonation, sqliteInsertDonation, hchk]

/-- Witness for C1 at a concrete input: a raw donor_name of length 1
is rejected by the Validator with the min-length message, and a
donor_name whose trimmed length is 1 is never persisted. -/
theorem donorName_rawLengthCheck_witness :
    (∃ es, validateCreate isIsoDate
        [("donor_name", JsValue.str "X"), ("donation_type", JsValue.str "food"),
         ("quantity", JsValue.num 1), ("date", JsValue.str "2024-01-01")]
      = .error es
        ∧ "donor_name: Donor name must be at least 2 characters" ∈ es) :=
  (donorName_rawLengthCheck_thenTrim_neverPersisted isIsoDate
      [("donor_name", JsValue.str "X"), ("donation_type", JsValue.str "food"),
       ("quantity", JsValue.num 1), ("date", JsValue.str "2024-01-01")]
      "X" (by decide)).1 (by decide)

/-! ## C2 — empty update payload -/

/-- Claim C2 counterexample: with one stored donation and an empty
update payload, `PUT /donations/1` answers the generic 500
"Failed to update donation" — not a typed 400 InvalidArgument carrying
"no fields provided" — and the Validator accepts the empty body
rather than rejecting it with "no fields supplied". -/
theorem emptyUpdate_counterexample :
    validateUpdate isIsoDate [] = .ok ⟨none, none, none, none⟩
  ∧ (routeUpdateDonation isIsoDate 9 "1" []
      ⟨[⟨1, "Alice", "food", 5, "2024-03-01", 3, 3⟩], 1⟩).1.status = 500
  ∧ (routeUpdateDonation isIsoDate 9 "1" []
      ⟨[⟨1, "Alice", "food", 5, "2024-03-01", 3, 3⟩], 1⟩).1.message
      = "Failed to update donation"
  ∧ ¬ ((routeUpdateDonation isIsoDate 9 "1" []
      ⟨[⟨1, "Alice", "food", 5, "2024-03-01", 3, 3⟩], 1⟩).1.status = 400)
  ∧ ¬ ((routeUpdateDonation isIsoDate 9 "1" []
      ⟨[⟨1, "Alice", "food", 5, "2024-03-01", 3, 3⟩], 1⟩).1.message
      = "no fields provided")
  ∧ (routeUpdateDonation isIsoDate 9 "1" []
      ⟨[⟨1, "Alice", "food", 5, "2024-03-01", 3, 3⟩], 1⟩).2
      = ⟨[⟨1, "Alice", "food", 5, "2024-03-01", 3, 3⟩], 1⟩ := by
  refine ⟨by decide, by decide, by decide, by decide, by decide, by decide⟩

/-- Claim C2 (corrected): an empty update payload passes the
Validator (`UpdateDonationSchema` accepts `\x7b\x7d`; there is no
"no fields supplied" rejection); the Store then throws
`Error('No fields provided for update')` — an exception, not a
discriminated result — which the route's generic catch surfaces as a
500 "Failed to update donation"; the store state is unchanged. -/
theorem emptyUpdate_throws_surfacedAs500
    (dateOk : String → Bool) (now : Nat) (idStr : String) (n : Int) (db : DB)
    (r : Donation) (hparse : jsParseInt idStr = some n) (hpos : 0 < n)
    (hrow : getDonationById n.toNat db = some r) :
    validateUpdate dateOk [] = .ok ⟨none, none, none, none⟩
  ∧ updateDonation now n.toNat ⟨none, none, none, none⟩ db
      = .error "No fields provided for update"
  ∧ routeUpdateDonation dateOk now idStr [] db
      = (⟨500, false, "Failed to update donation", [], none⟩, db) := by
  have hval : validateUpdate dateOk [] = .ok ⟨none, none, none, none⟩ := rfl
  have hupd : updateDonation now n.toNat ⟨none, none, none, none⟩ db
      = .error "No fields provided for update" := rfl
  refine ⟨hval, hupd, ?_⟩
  simp only [routeUpdateDonation, hparse, if_neg (not_le.mpr hpos), hval, hrow, hupd]

/-- Witness for C2 at a concrete input: the Store operation on an
existing id with the empty payload rejects with the thrown error's
message, and the route surfaces it as the generic 500. -/
theorem emptyUpdate_throws_witness :
    routeUpdateDonation isIsoDate 9 "1" []
        ⟨[⟨1, "Alice", "food", 5, "2024-03-01", 3, 3⟩], 1⟩
      = (⟨500, false, "Failed to update donation", [], none⟩,
         ⟨[⟨1, "Alice", "food", 5, "2024-03-01", 3, 3⟩], 1⟩) :=
  (emptyUpdate_throws_surfacedAs500 isIsoDate 9 "1" 1
      ⟨[⟨1, "Alice", "food", 5, "2024-03-01", 3, 3⟩], 1⟩
      ⟨1, "Alice", "food", 5, "2024-03-01", 3, 3⟩
      (by decide) (by decide) (by decide)).2.2

/-! ## C4 — independent storage-level constraint enforcement -/

/-- Claim C4 (confirmed): the Store enforces the table constraints
(type in the seven-value enumeration, quantity > 0, donor_name length
at least 2) on its own: for any create input violating any of them —
including one handed directly to `createDonation`, bypassing the
Validator — the SQLite engine rejects the INSERT as a constraint
violation, nothing is persisted (the operation produces no new state,
so no violating row exists even transiently), and the create fails. -/
theorem store_constraints_enforced_independently
    (now : Nat) (i : CreateDonationInput) (db : DB)
    (h : storeChecksOk i.donor_name i.donation_type i.quantity = false) :
    sqliteInsertDonation now i db false = .error .constraintViolation
  ∧ createDonation now i db false = .error "Failed to create donation"
  ∧ (∀ d db', sqliteInsertDonation now i db false ≠ .ok (d, db')) := by
  have hins : sqliteInsertDonation now i db false = .error .constraintViolation := by
    simp [sqliteInsertDonation, h]
  refine ⟨hins, ?_, ?_⟩
  · simp [createDonation, hins]
  · intro d db' hcontra
    rw [hins] at hcontra
    exact Except.noConfusion hcontra

/-- Witness for C4 at a concrete input: `quantity = 0` bypassing the
Validator (which would itself have rejected it) is refused by the
Store and nothing is persisted. -/
theorem store_constraints_enforced_witness :
    sqliteInsertDonation 10 ⟨"Alice", "food", 0, "2024-03-01"⟩ emptyDB false
      = .error .constraintViolation
  ∧ createDonation 10 ⟨"Alice", "food", 0, "2024-03-01"⟩ emptyDB false
      = .error "Failed to create donation" :=
  ⟨(store_constraints_enforced_independently 10
      ⟨"Alice", "food", 0, "2024-03-01"⟩ emptyDB (by decide)).1,
   (store_constraints_enforced_independently 10
      ⟨"Alice", "food", 0, "2024-03-01"⟩ emptyDB (by decide)).2.1⟩

/-! ## C5 — ConstraintViolation vs StorageFault at the surface -/

/-- Claim C5 counterexample: a constraint-violating create (quantity
-1, checks fail, no medium fault) and a storage-medium failure on a
perfectly valid create produce the very same outcome value —
`Error('Failed to create donation')`, surfaced as the same 500
response — so a caller cannot branch between the client-error
(constraint) and server-error (medium fault) classes. -/
theorem constraintViolation_indistinguishable_counterexample :
    createDonation 0 ⟨"Alice", "food", -1, "2024-03-01"⟩ emptyDB false
      = createDonation 0 ⟨"Alice", "food", 5, "2024-03-01"⟩ emptyDB true
  ∧ sqliteInsertDonation 0 ⟨"Alice", "food", -1, "2024-03-01"⟩ emptyDB false
      = .error .constraintViolation
  ∧ sqliteInsertDonation 0 ⟨"Alice", "food", 5, "2024-03-01"⟩ emptyDB true
      = .error .ioFailure := by
  refine ⟨by decide, by decide, by decide⟩

/-- Claim C5 (corrected): `createDonation` collapses every SQLite
error — constraint rejection and medium failure alike — into the one
rejection `Error('Failed to create donation')`, surfaced by the route
as the same 500 response; that response is distinct from the 400
validation outcome and the 404 not-found outcome, but constraint
violations are not surfaced distinctly from storage faults. -/
theorem constraint_and_fault_collapsed
    (now : Nat) (i : CreateDonationInput) (db : DB)
    (hbad : storeChecksOk i.donor_name i.donation_type i.quantity = false) :
    createDonation now i db false = .error "Failed to create donation"
  ∧ (∀ iGood dbg, createDonation now iGood dbg true
      = .error "Failed to create donation")
  ∧ (∀ iGood dbg, createDonation now i db false = createDonation now iGood dbg true)
  ∧ (∀ dateOk body, validateCreate dateOk body = .ok i →
      routeCreateDonation dateOk now body db false
        = (⟨500, false, "Failed to create donation", [], none⟩, db))
  ∧ (∀ dateOk body es, validateCreate dateOk body = .error es →
      (routeCreateDonation dateOk now body db false).1.status = 400
        ∧ (routeCreateDonation dateOk now body db false).1.message
            = "Validation failed")
  ∧ (∀ s n dbx, jsParseInt s = some n → 0 < n → getDonationById n.toNat dbx = none →
      (routeGetDonationById s dbx).status = 404) := by
  have hone : createDonation now i db false = .error "Failed to create donation" := by
    simp [createDonation, sqliteInsertDonation, hbad]
  have htwo : ∀ iGood dbg, createDonation now iGood dbg true
      = .error "Failed to create donation" := by
    intro iGood dbg
    simp [createDonation, sqliteInsertDonation]
  refine ⟨hone, htwo, fun iGood dbg => by rw [hone, htwo], ?_, ?_, ?_⟩
  · intro dateOk body hv
    simp only [routeCreateDonation, hv, hone]
  · intro dateOk body es hv
    simp [routeCreateDonation, hv]
  · intro s n dbx hp hpos hg
    simp only [routeGetDonationById, hp, if_neg (not_le.mpr hpos), hg]

/-- Witness for C5 at a concrete input: a constraint-violating create
fails with the one collapsed error message. -/
theorem constraint_and_fault_collapsed_witness :
    createDonation 0 ⟨"Bo", "toys", 0, "2024-05-05"⟩ emptyDB false
      = .error "Failed to create donation" :=
  (constraint_and_fault_collapsed 0 ⟨"Bo", "toys", 0, "2024-05-05"⟩ emptyDB
    (by decide)).1

/-! ## C6 — delete returns a boolean flag and is idempotent -/

/-- Claim C6 (confirmed): `deleteDonation` resolves a boolean — `true`
exactly when a row with the id existed (and it is removed), `false`
otherwise, never a rejection (its result type carries no error) — and
deleting the same id twice never faults: the second call returns
`false` and leaves the state unchanged. -/
theorem delete_returns_flag_and_isIdempotent (id : Nat) (db : DB) :
    ((deleteDonation id db).1 = db.rows.any (fun r => r.id == id))
  ∧ (deleteDonation id (deleteDonation id db).2).1 = false
  ∧ (deleteDonation id (deleteDonation id db).2).2 = (deleteDonation id db).2 := by
  by_cases h : db.rows.any (fun r => r.id == id)
  · have hafter : (db.rows.filter (fun r => r.id != id)).any
        (fun r => r.id == id) = false := by
      rw [List.any_eq_false]
      intro r hr
      rw [List.mem_filter] at hr
      simpa using hr.2
    simp [deleteDonation, h, hafter]
  · simp [deleteDonation, h]

/-! ## C7 — partial-update frame condition and updated_at -/

/-- Claim C7 counterexample: an update whose `CURRENT_TIMESTAMP`
equals the row's pre-update `updated_at` (here both 5 — SQLite's
timestamp has one-second granularity, so an update within the same
second as the previous write does this) succeeds but leaves
`updated_at` equal, not strictly greater, than its pre-update value. -/
theorem update_notStrictIncrease_counterexample :
    updateDonation 5 1 ⟨none, none, some 7, none⟩
        ⟨[⟨1, "Alice", "food", 5, "2024-03-01", 5, 5⟩], 1⟩
      = .ok (some ⟨1, "Alice", "food", 7, "2024-03-01", 5, 5⟩,
             ⟨[⟨1, "Alice", "food", 7, "2024-03-01", 5, 5⟩], 1⟩)
  ∧ ¬ ((⟨1, "Alice", "food", 5, "2024-03-01", 5, 5⟩ : Donation).updated_at
        < (⟨1, "Alice", "food", 7, "2024-03-01", 5, 5⟩ : Donation).updated_at) := by
  refine ⟨by decide, by decide⟩

/-- Claim C7 (corrected): for every successful update of an existing
record, the result is exactly the old row with the supplied fields
overwritten — every field not present in the payload (and `id` and
`created_at`) keeps its pre-update value — and `updated_at` is always
refreshed to the operation's current time; it therefore strictly
increases precisely when the clock has advanced past the pre-update
value (equality is possible within the same timestamp granularity). -/
theorem update_frame_and_refreshes_updatedAt
    (now id : Nat) (u : UpdateDonationInput) (db db' : DB) (r' : Donation)
    (h : updateDonation now id u db = .ok (some r', db')) :
    ∃ r, getDonationById id db = some r
      ∧ r' = applyUpdate u now r
      ∧ r'.updated_at = now
      ∧ r'.id = r.id
      ∧ r'.created_at = r.created_at
      ∧ (u.donor_name = none → r'.donor_name = r.donor_name)
      ∧ (u.donation_type = none → r'.donation_type = r.donation_type)
      ∧ (u.quantity = none → r'.quantity = r.quantity)
      ∧ (u.date = none → r'.date = r.date)
      ∧ (r.updated_at < now ↔ r.updated_at < r'.updated_at) := by
  rw [updateDonation] at h
  by_cases he : u.isEmpty = true
  · rw [if_pos he] at h
    exact absurd h (by simp)
  · rw [if_neg he] at h
    cases hf : db.rows.find? (fun r => r.id == id) with
    | none =>
      rw [hf] at h
      exact absurd h (by simp)
    | some r =>
      rw [hf] at h
      dsimp only at h
      by_cases hc : storeChecksOk (applyUpdate u now r).donor_name
          (applyUpdate u now r).donation_type (applyUpdate u now r).quantity = true
      · rw [if_pos hc] at h
        have hr' : r' = applyUpdate u now r := by
          injection h with h2
          injection h2 with h3 h4
          injection h3 with h5
          exact h5.symm
        refine ⟨r, hf, hr', ?_⟩
        subst hr'
        refine ⟨rfl, rfl, rfl, ?_, ?_, ?_, ?_, Iff.rfl⟩ <;>
          (intro hn; simp [applyUpdate, hn])
      · rw [if_neg hc] at h
        exact absurd h (by simp)

/-- Witness for C7 at a concrete input: updating only `quantity` at
time 9 keeps `donor_name` and `created_at` and sets `updated_at` to
9. -/
theorem update_frame_and_refreshes_updatedAt_witness :
    ∃ r, getDonationById 1
          (⟨[⟨1, "Alice", "food", 5, "2024-03-01", 3, 3⟩], 1⟩ : DB) = some r
      ∧ (⟨1, "Alice", "food", 7, "2024-03-01", 3, 9⟩ : Donation)
          = applyUpdate ⟨none, none, some 7, none⟩ 9 r :=
  match update_frame_and_refreshes_updatedAt 9 1 ⟨none, none, some 7, none⟩
      ⟨[⟨1, "Alice", "food", 5, "2024-03-01", 3, 3⟩], 1⟩
      ⟨[⟨1, "Alice", "food", 7, "2024-03-01", 3, 9⟩], 1⟩
      ⟨1, "Alice", "food", 7, "2024-03-01", 3, 9⟩ (by decide) with
  | ⟨r, h1, h2, _⟩ => ⟨r, h1, h2⟩

/-! ## C8 — fresh monotonically increasing ids, created_at = updated_at -/

/-- Claim C8 (confirmed): every successful create returns a row with
`created_at = updated_at` (both columns default to the same
per-statement `CURRENT_TIMESTAMP`) and id `seq + 1`, strictly greater
than — in particular different from — the id of every row ever
assigned (under the `AUTOINCREMENT` invariant `DB.wf`); the new state
keeps the invariant, and deletion leaves the sequence value untouched,
so an id is never reused even after its record is deleted. -/
theorem create_fresh_id_and_equal_timestamps
    (now : Nat) (i : CreateDonationInput) (db db' : DB) (d : Donation)
    (hwf : db.wf) (h : createDonation now i db false = .ok (d, db')) :
    d.created_at = d.updated_at
  ∧ d.id = db.seq + 1
  ∧ (∀ r ∈ db.rows, r.id < d.id)
  ∧ (∀ r ∈ db.rows, r.id ≠ d.id)
  ∧ db'.wf
  ∧ db'.seq = d.id
  ∧ db'.rows = db.rows ++ [d]
  ∧ (∀ j, ((deleteDonation j db').2).seq = db'.seq) := by
  rw [createDonation, sqliteInsertDonation] at h
  by_cases hc : storeChecksOk i.donor_name i.donation_type i.quantity = true
  · simp only [Bool.false_eq_true, if_false, if_pos hc] at h
    have hd : d = ⟨db.seq + 1, i.donor_name, i.donation_type, i.quantity, i.date, now, now⟩
        ∧ db' = ⟨db.rows ++ [d], db.seq + 1⟩ := by
      injection h with h2
      injection h2 with h3 h4
      exact ⟨h3.symm, by rw [h4.symm, h3]⟩
    obtain ⟨hd1, hd2⟩ := hd
    have hidlt : ∀ r ∈ db.rows, r.id < d.id := by
      intro r hr
      rw [hd1]
      exact Nat.lt_succ_of_le (hwf r hr)
    refine ⟨by rw [hd1], by rw [hd1], hidlt,
      fun r hr => Nat.ne_of_lt (hidlt r hr), ?_, ?_, ?_, ?_⟩
    · intro r hr
      rw [hd2] at hr
      rcases List.mem_append.mp hr with hold | hnew
      · rw [hd2, hd1]
        exact Nat.le_succ_of_le (hwf r hold)
      · rw [List.mem_singleton.mp hnew, hd2, hd1]
    · rw [hd2, hd1]
    · rw [hd2]
    · intro j
      by_cases hj : db'.rows.any (fun r => r.id == j) <;>
        simp [deleteDonation, hj]
  · simp only [Bool.false_eq_true, if_false, if_neg hc] at h
    exact absurd h (by simp)

/-- Witness for C8 at a concrete input: the first create on the empty
store yields id 1 and equal timestamps. -/
theorem create_fresh_id_and_equal_timestamps_witness :
    (⟨1, "Alice", "food", 5, "2024-03-01", 7, 7⟩ : Donation).created_at
      = (⟨1, "Alice", "food", 5, "2024-03-01", 7, 7⟩ : Donation).updated_at
  ∧ (⟨1, "Alice", "food", 5, "2024-03-01", 7, 7⟩ : Donation).id = emptyDB.seq + 1 :=
  ⟨(create_fresh_id_and_equal_timestamps 7 ⟨"Alice", "food", 5, "2024-03-01"⟩
      emptyDB ⟨[⟨1, "Alice", "food", 5, "2024-03-01", 7, 7⟩], 1⟩
      ⟨1, "Alice", "food", 5, "2024-03-01", 7, 7⟩ (by simp [DB.wf, emptyDB]) (by decide)).1,
   (create_fresh_id_and_equal_timestamps 7 ⟨"Alice", "food", 5, "2024-03-01"⟩
      emptyDB ⟨[⟨1, "Alice", "food", 5, "2024-03-01", 7, 7⟩], 1⟩
      ⟨1, "Alice", "food", 5, "2024-03-01", 7, 7⟩ (by simp [DB.wf, emptyDB]) (by decide)).2.1⟩

/-! ## C10 — unknown body keys are stripped, never rejected, never stored -/

theorem lookupField_append_right_none (m extras : FieldMap) (k : String)
    (h : ∀ kv ∈ extras, ¬ (kv.1 = k)) :
    lookupField (m ++ extras) k = lookupField m k := by
  unfold lookupField
  rw [List.lookup_append]
  have hz : List.lookup k extras = none := by
    rw [List.lookup_eq_none_iff]
    intro p hp
    simp only [bne_iff_ne, ne_eq]
    intro he
    exact h p hp he.symm
  rw [hz, Option.or_none]

/-- Claim C10 (confirmed): `z.object` parses only the four declared
keys, so any other keys in a create or update body are silently
stripped: the validation verdict and normalized record are identical
with or without them — their presence never causes rejection — and
since the normalized `CreateDonationInput` / `UpdateDonationInput`
carry only the four declared fields, nothing else ever reaches the
Store to be persisted or echoed back. -/
theorem unknownKeys_stripped_and_ignored
    (dateOk : String → Bool) (m extras : FieldMap)
    (h : ∀ kv ∈ extras,
        kv.1 ∉ (["donor_name", "donation_type", "quantity", "date"] : List String)) :
    validateCreate dateOk (m ++ extras) = validateCreate dateOk m
  ∧ validateUpdate dateOk (m ++ extras) = validateUpdate dateOk m
  ∧ (∀ now db b, routeCreateDonation dateOk now (m ++ extras) db b
      = routeCreateDonation dateOk now m db b) := by
  have h1 := lookupField_append_right_none m extras "donor_name"
    (fun kv hkv he => h kv hkv (by simp [he]))
  have h2 := lookupField_append_right_none m extras "donation_type"
    (fun kv hkv he => h kv hkv (by simp [he]))
  have h3 := lookupField_append_right_none m extras "quantity"
    (fun kv hkv he => h kv hkv (by simp [he]))
  have h4 := lookupField_append_right_none m extras "date"
    (fun kv hkv he => h kv hkv (by simp [he]))
  have hvc : validateCreate dateOk (m ++ extras) = validateCreate dateOk m := by
    unfold validateCreate
    rw [h1, h2, h3, h4]
  have hvu : validateUpdate dateOk (m ++ extras) = validateUpdate dateOk m := by
    unfold validateUpdate
    rw [h1, h2, h3, h4]
  exact ⟨hvc, hvu, fun now db b => by unfold routeCreateDonation; rw [hvc]⟩

/-- Witness for C10 at a concrete input: an extra `admin` key changes
nothing about the verdict of a valid create body. -/
theorem unknownKeys_stripped_witness :
    validateCreate isIsoDate
        ([("donor_name", JsValue.str "Alice"), ("donation_type", JsValue.str "food"),
          ("quantity", JsValue.num 5), ("date", JsValue.str "2024-03-01")]
          ++ [("admin", JsValue.num 1)])
      = validateCreate isIsoDate
        [("donor_name", JsValue.str "Alice"), ("donation_type", JsValue.str "food"),
         ("quantity", JsValue.num 5), ("date", JsValue.str "2024-03-01")] :=
  (unknownKeys_stripped_and_ignored isIsoDate
      [("donor_name", JsValue.str "Alice"), ("donation_type", JsValue.str "food"),
       ("quantity", JsValue.num 5), ("date", JsValue.str "2024-03-01")]
      [("admin", JsValue.num 1)] (by decide)).1
